import Mathlib

/-!
Verification development for the KL-Recycling-App ML data pipeline.

The definitions below are a shallow embedding of the Python sources
`kl_recycling_app/ml_training/process_data.py`,
`kl_recycling_app/ml_training/check_data.py` and
`kl_recycling_app/ml_training/scripts/data_processor.py`.
Machine floats are modelled by `ℚ`; Python dictionaries with optional keys
become structures with `Option` fields; Python code that catches exceptions
and drops a sample becomes an `Option`-returning function; code that lets an
exception escape becomes `Except`.
-/

namespace KLRecycling

/-! ## Embedding of `process_data.py` (class `ScrapMetalDataProcessor`) -/

/-- Source `process_data.py` line 35-40: the `class_mapping` dictionary
`{'steel': 0, 'aluminum': 1, 'copper': 2, 'brass': 3}`, as an association
list in insertion order. -/
def class_mapping : List (String × Nat) :=
  [("steel", 0), ("aluminum", 1), ("copper", 2), ("brass", 3)]

/-- Python `dict.get(key, default)` on an association list. -/
def dictGet (m : List (String × Nat)) (key : String) (dflt : Nat) : Nat :=
  match m.find? (fun p => p.1 == key) with
  | some p => p.2
  | none => dflt

/-- Source line 43: `self.img_width = 640` (fixed assumed width, the actual
image file is never opened to read its size). -/
def img_width : ℕ := 640

/-- Source line 44: `self.img_height = 480`. -/
def img_height : ℕ := 480

/-- A raw JSON annotation as read from disk: the three keys the converter
accesses, each possibly absent (`annotation.get` with a default). -/
structure Ann where
  material_type : Option String
  bounding_box : Option (List ℤ)
  weight_pounds : Option ℚ
deriving Repr, DecidableEq

/-- A collected sample, the dictionary appended by `_collect_data`
(source lines 119-124): image path, the category directory name, and the
parsed annotation (the `json_path` key is dropped as redundant here). -/
structure Item where
  image_path : String
  material : String
  annotation : Ann
deriving Repr, DecidableEq

/-- Source lines 142-145: the normalized-coordinate arithmetic of
`_convert_to_yolo_format`, dividing by the fixed `self.img_width = 640` and
`self.img_height = 480`:
`x_center = (x_min + x_max) / 2 / self.img_width` etc. -/
def yoloCoords (x_min y_min x_max y_max : ℤ) : ℚ × ℚ × ℚ × ℚ :=
  ((x_min + x_max) / 2 / (img_width : ℚ),
   (y_min + y_max) / 2 / (img_height : ℚ),
   (x_max - x_min) / (img_width : ℚ),
   (y_max - y_min) / (img_height : ℚ))

/-- Modelled from the spec (for comparison with `yoloCoords`): §4.2 demands
`x_center=(x_min+x_max)/(2W)`, `y_center=(y_min+y_max)/(2H)`,
`width=(x_max-x_min)/W`, `height=(y_max-y_min)/H` where `(W, H)` are the
dimensions of the image the annotation belongs to. -/
def specNormalize (x_min y_min x_max y_max : ℤ) (W H : ℕ) : ℚ × ℚ × ℚ × ℚ :=
  ((x_min + x_max) / (2 * (W : ℚ)),
   (y_min + y_max) / (2 * (H : ℚ)),
   (x_max - x_min) / (W : ℚ),
   (y_max - y_min) / (H : ℚ))

/-- Left-pad a digit string with zeros to width 6, for the fractional part
of a fixed-point rendering. -/
def padZeros6 (s : String) : String :=
  String.mk (List.replicate (6 - s.length) '0') ++ s

/-- The integer of micro-units nearest to `q` (rounding half up): the value
whose decimal digits a fixed six-decimal rendering of `q` prints. -/
def microRound (q : ℚ) : ℤ := ⌊q * 1000000 + 1 / 2⌋

/-- Model of Python `f"{q:.6f}"`: fixed six-decimal rendering of a number.
(Python rounds the IEEE double nearest to the value; on the dyadic rationals
this file evaluates it on, the two renderings agree exactly.) -/
def format6 (q : ℚ) : String :=
  (if microRound q < 0 then "-" else "")
    ++ Nat.repr ((microRound q).natAbs / 1000000) ++ "."
    ++ padZeros6 (Nat.repr ((microRound q).natAbs % 1000000))

/-- Source line 148: `class_id = self.class_mapping.get(annotation.get('material_type',
item['material']), 0)`. -/
def class_id_of (item : Item) : Nat :=
  dictGet class_mapping (item.annotation.material_type.getD item.material) 0

/-- Source line 154: the formatted label line
`f"{class_id} {x_center:.6f} {y_center:.6f} {width:.6f} {height:.6f}"`. -/
def bbox_data_str (cid : Nat) (c : ℚ × ℚ × ℚ × ℚ) : String :=
  Nat.repr cid ++ " " ++ format6 c.1 ++ " " ++ format6 c.2.1 ++ " "
    ++ format6 c.2.2.1 ++ " " ++ format6 c.2.2.2

/-- The dictionary `_convert_to_yolo_format` returns (source lines 150-156);
the redundant `annotation` echo is dropped. -/
structure YoloRow where
  image_path : String
  material : String
  weight : ℚ
  bbox_data : String
deriving Repr, DecidableEq

/-- Source lines 130-160, `_convert_to_yolo_format`: reads
`bounding_box` with default `[80, 60, 480, 360]`, unpacks it into four
variables (a list of any other length raises and is caught by the
`except` clause, which returns `None`), computes the normalized
coordinates, looks up the class id with default `0`, and formats the label
line.  No range check of any kind is performed on the coordinates. -/
def convert_to_yolo_format (item : Item) : Option YoloRow :=
  let bbox := item.annotation.bounding_box.getD [80, 60, 480, 360]
  match bbox with
  | [x_min, y_min, x_max, y_max] =>
      some { image_path := item.image_path
             material := item.annotation.material_type.getD item.material
             weight := item.annotation.weight_pounds.getD 0
             bbox_data := bbox_data_str (class_id_of item)
               (yoloCoords x_min y_min x_max y_max) }
  | _ => none

/-- Source line 177 of `_create_split`: the label file receives
`row['bbox_data'] + '\\n'`.  The Python source literally contains the
two-character escape `\\n` (backslash, letter n), not a newline escape, so
the written suffix is the two characters `\` and `n`. -/
def label_file_content (row : YoloRow) : String :=
  row.bbox_data ++ "\\n"

/-- Source lines 162-177, `_create_split`: for each row, copy the image to
the split directory unchanged and write the single label file.  The output
models the written files as `(path, content)` pairs; an image copy is
rendered as a pair carrying the source path as its (unchanged) content. -/
def create_split (rows : List YoloRow) : List (String × String) :=
  rows.flatMap (fun row =>
    [(row.image_path, row.image_path),
     (row.image_path ++ ".txt", label_file_content row)])

/-! ## Embedding of `_collect_data` (`process_data.py` lines 98-128) -/

/-- One entry of the raw image directory: the image path, whether the
like-named `.json` annotation file exists, and — when it does — the result
of parsing it (`none` models a `json.load` failure, which line 125-126
catches and skips). -/
structure RawFile where
  img_path : String
  json_exists : Bool
  parsed : Option Ann
deriving DecidableEq

/-- One entry of `raw_data_dir.iterdir()`: its full path string
(`str(material_dir)`), its basename (`material_dir.name`), whether it is a
directory, and the `*.jpg` files it holds. -/
structure MaterialDir where
  path : String
  name : String
  is_dir : Bool
  files : List RawFile
deriving DecidableEq

/-- Source line 103: the guard
`any(x in ['train', 'val', 'test'] for x in str(material_dir))`.
Python iterates a string character by character, so each `x` is a
one-character string tested for membership in the three-element list. -/
def py_split_dir_guard (s : String) : Bool :=
  s.data.any (fun c => ["train", "val", "test"].contains (String.singleton c))

/-- Source lines 111-126: the image/annotation pairs one category directory
contributes — each image whose `.json` exists and parses, tagged with the
directory name as its material. -/
def dir_items (d : MaterialDir) : List Item :=
  d.files.filterMap (fun f =>
    if f.json_exists then f.parsed.map (fun a => ⟨f.img_path, d.name, a⟩)
    else none)

/-- Source lines 98-128, `_collect_data`: every immediate child that is a
directory and escapes the split-name guard contributes its pairs. -/
def collect_data (dirs : List MaterialDir) : List Item :=
  (dirs.filter (fun d => d.is_dir && !py_split_dir_guard d.path)).flatMap dir_items

/-! ## Embedding of `process_dataset` (`process_data.py` lines 46-96) -/

/-- The exceptions relevant to the pipeline run: the spec's
`InsufficientDataError`, and the `ValueError` that sklearn's
`train_test_split` raises on an unsplittable stratification (uncaught by
`process_dataset`). -/
inductive PipeError where
  | insufficientData
  | stratifyValueError
deriving DecidableEq

/-- Source lines 62-66: the conversion loop keeps exactly the items
`_convert_to_yolo_format` does not reject. -/
def convert_stage (items : List Item) : List YoloRow :=
  items.filterMap convert_to_yolo_format

/-- The two chained `train_test_split` calls of lines 77-78, abstracted as a
function from the YOLO rows to the three split frames; it may raise (model
of sklearn's `ValueError` on bad stratification). -/
def SplitFn : Type :=
  List YoloRow → Except PipeError (List YoloRow × List YoloRow × List YoloRow)

/-- Source lines 46-96, `process_dataset`: collect counts are checked first
(fewer than 20 items prints a message and returns `False` — line 54-56 —
with nothing written), then conversion, the `< 10` re-check (lines 68-70),
then splitting and the three `_create_split` calls.  The returned pair is
Python's boolean result together with the list of files written; the
`data.yaml` write (claim-irrelevant) is omitted. -/
def process_dataset (all_data : List Item) (tts : SplitFn) :
    Except PipeError (Bool × List (String × String)) :=
  if all_data.length < 20 then .ok (false, [])
  else
    let yolo_data := convert_stage all_data
    if yolo_data.length < 10 then .ok (false, [])
    else
      match tts yolo_data with
      | .error e => .error e
      | .ok (tr, va, te) =>
          .ok (true, create_split tr ++ create_split va ++ create_split te)

/-! ## Seed-dependence model of the `train_test_split` calls (lines 77-78)

sklearn's subsampling is deterministic in the integer `random_state` when
one is passed, and draws from the ambient global RNG otherwise.  The
sampler itself (a Mersenne-Twister-driven stratified shuffle) is an
external-library black box, abstracted as an arbitrary function of the
effective seed. -/

/-- A deterministic model of sklearn's seeded sampler: from an effective
seed and the rows, produce the (train-side, test-side) pair. -/
def Sampler : Type := ℕ → List YoloRow → List YoloRow × List YoloRow

/-- The randomness source `train_test_split` actually uses: the
`random_state` argument when given, the ambient global RNG state when not. -/
def tts_random_source (random_state : Option ℕ) (global_rng : ℕ) : ℕ :=
  match random_state with
  | some s => s
  | none => global_rng

/-- One `train_test_split` call under the seed model. -/
def train_test_split_model (sampler : Sampler) (random_state : Option ℕ)
    (global_rng : ℕ) (rows : List YoloRow) : List YoloRow × List YoloRow :=
  sampler (tts_random_source random_state global_rng) rows

/-- Source lines 77-78: both calls pass `random_state=42`; the first cuts
off `temp`, the second cuts `temp` into val and test. -/
def create_data_splits (sampler : Sampler) (global_rng : ℕ)
    (rows : List YoloRow) : List YoloRow × List YoloRow × List YoloRow :=
  let p1 := train_test_split_model sampler (some 42) global_rng rows
  let p2 := train_test_split_model sampler (some 42) global_rng p1.2
  (p1.1, p2.1, p2.2)

/-! ## Embedding of the label check in `check_data.py` (lines 63-89) -/

/-- Python's notion of whitespace for `str.strip()` and `str.split()`. -/
def isPyWs (c : Char) : Bool :=
  c = ' ' || c = '\t' || c = '\n' || c = '\r' || c = '\x0b' || c = '\x0c'

/-- Python `str.strip()`: drop leading and trailing whitespace. -/
def pythonStrip (s : String) : String :=
  String.mk (((s.data.dropWhile isPyWs).reverse.dropWhile isPyWs).reverse)

/-- Helper for `pythonSplitWs`: accumulate the current token (reversed) and
split at whitespace runs. -/
def pySplitAux (cur : List Char) : List Char → List (List Char)
  | [] => if cur = [] then [] else [cur.reverse]
  | c :: rest =>
      if isPyWs c then
        if cur = [] then pySplitAux [] rest else cur.reverse :: pySplitAux [] rest
      else pySplitAux (c :: cur) rest

/-- Python `str.split()` with no argument: split on whitespace runs,
producing no empty tokens. -/
def pythonSplitWs (s : String) : List String :=
  (pySplitAux [] s.data).map String.mk

/-- Digit list to number, most significant first. -/
def digitsToNat (l : List Char) : ℕ :=
  l.foldl (fun a c => a * 10 + (c.toNat - Char.toNat '0')) 0

/-- Integer front end of Python `float()` on a whitespace-free token,
restricted to the plain decimal grammar `[+|-] digits [. digits]` that the
label tokens of this pipeline use (exponents and named specials are out of
scope of the corpus): sign, integer part, fractional part, fractional
length; `none` models a `ValueError`. -/
def parseDec (s : String) : Option (Bool × ℕ × ℕ × ℕ) :=
  let cs := s.data
  let sr : Bool × List Char :=
    match cs with
    | '-' :: r => (true, r)
    | '+' :: r => (false, r)
    | r => (false, r)
  let ip := sr.2.takeWhile Char.isDigit
  let rest := sr.2.drop ip.length
  match rest with
  | [] => if ip = [] then none else some (sr.1, digitsToNat ip, 0, 0)
  | '.' :: fr =>
      if fr.all Char.isDigit && !(ip = [] && fr = []) then
        some (sr.1, digitsToNat ip, digitsToNat fr, fr.length)
      else none
  | _ => none

/-- Python `float()` on a token: the numeric value of the parsed decimal. -/
def parseFloatQ (s : String) : Option ℚ :=
  (parseDec s).map (fun r =>
    let mag : ℚ := (r.2.1 : ℚ) + (r.2.2.1 : ℚ) / (10 : ℚ) ^ r.2.2.2
    if r.1 then -mag else mag)

/-- The verdicts the label-format check of `check_data.py` prints. -/
inductive LabelVerdict where
  | valid
  | invalidValueRanges
  | couldNotParseNumbers
  | wrongTokenCount
  | emptyFile
deriving DecidableEq

/-- Source `check_data.py` lines 67-87: strip the file content; an empty
result is flagged; otherwise split into whitespace-separated tokens, demand
exactly 5, parse each as a float (a failure is flagged), and accept iff the
four box values lie in `[0, 1]` and the class value lies in `[0, 3]`. -/
def validateLabelContent (content : String) : LabelVerdict :=
  let c := pythonStrip content
  if c.data = [] then .emptyFile
  else
    match pythonSplitWs c with
    | [p0, p1, p2, p3, p4] =>
        match parseFloatQ p0, parseFloatQ p1, parseFloatQ p2,
            parseFloatQ p3, parseFloatQ p4 with
        | some v0, some v1, some v2, some v3, some v4 =>
            if ((0 ≤ v1 ∧ v1 ≤ 1) ∧ (0 ≤ v2 ∧ v2 ≤ 1) ∧ (0 ≤ v3 ∧ v3 ≤ 1)
                  ∧ (0 ≤ v4 ∧ v4 ≤ 1)) ∧ (0 ≤ v0 ∧ v0 ≤ 3) then .valid
            else .invalidValueRanges
        | _, _, _, _, _ => .couldNotParseNumbers
    | _ => .wrongTokenCount

/-- Source `check_data.py` lines 62-66: within each split directory, only
the first label file (`labels[0]`), when any exists, has its content
checked. -/
def check_first_label (labels : List String) : Option LabelVerdict :=
  labels.head?.map validateLabelContent

/-! ## Quality assessment (`scripts/data_processor.py` lines 251-326)

The pixel statistics that the external libraries `cv2` and `numpy` compute
in lines 259-272 (luminance mean, luminance standard deviation, Laplacian
variance, saturation-channel mean) are modelled as the fields of the
decoded image, since their computation is vendor code; everything the
repository does with them is embedded. -/

/-- A successfully decoded image: its measured statistics and shape. -/
structure DecodedImage where
  brightness : ℚ
  contrast : ℚ
  blurriness : ℚ
  saturation : ℚ
  width : ℕ
  height : ℕ
deriving DecidableEq

/-- The `quality_control.image_quality_checks` thresholds of the
configuration file (line 306): `brightness_threshold` is a range, of which
only its upper end `[1]` is read. -/
structure QualityChecksCfg where
  brightness_threshold_hi : ℚ
  contrast_threshold : ℚ
  blur_threshold : ℚ
  saturation_threshold : ℚ

/-- The `ImageQualityMetrics` dataclass (lines 50-61). -/
structure ImageQualityMetrics where
  brightness : ℚ
  contrast : ℚ
  blurriness : ℚ
  saturation : ℚ
  resolution_width : ℕ
  resolution_height : ℕ
  aspect_ratio : ℚ
  has_reference_object : Bool
  overall_score : ℚ
deriving DecidableEq

/-- Lines 296-300: the metrics returned when anything in the assessment
raises — every numeric field zero, the flag false. -/
def zero_metrics : ImageQualityMetrics :=
  { brightness := 0, contrast := 0, blurriness := 0, saturation := 0,
    resolution_width := 0, resolution_height := 0, aspect_ratio := 0,
    has_reference_object := false, overall_score := 0 }

/-- Model of `np.average(scores, weights=weights)`: the weighted sum over
the weight total. -/
def np_average (scores weights : List ℚ) : ℚ :=
  ((scores.zip weights).map (fun p => p.1 * p.2)).sum / weights.sum

/-- Lines 302-320, `_calculate_quality_score`: cap each statistic at 1
against its threshold, score the reference flag 1 or 0.5, and average with
the literal weights `[0.2, 0.2, 0.3, 0.2, 0.1]`. -/
def calculate_quality_score (cfg : QualityChecksCfg)
    (brightness contrast blurriness saturation : ℚ) (has_reference : Bool) : ℚ :=
  let brightness_score := min (brightness / cfg.brightness_threshold_hi) 1
  let contrast_score := min (contrast / cfg.contrast_threshold) 1
  let blur_score := min (blurriness / cfg.blur_threshold) 1
  let saturation_score := min (saturation / cfg.saturation_threshold) 1
  let reference_score : ℚ := if has_reference then 1 else 1 / 2
  np_average
    [brightness_score, contrast_score, blur_score, saturation_score, reference_score]
    [2 / 10, 2 / 10, 3 / 10, 2 / 10, 1 / 10]

/-- Lines 322-326, `_detect_reference_object`: true iff the image width
(`image.shape[1]`) exceeds the configured `min_resolution`. -/
def detect_reference_object (min_resolution : ℕ) (d : DecodedImage) : Bool :=
  min_resolution < d.width

/-- Lines 251-300, `_assess_image_quality`: a decode failure (`cv2.imread`
returning `None`, line 255-257, or any other raise) yields `zero_metrics`;
a decoded image is scored.  `aspect_ratio` is `shape[1] / shape[0]`,
i.e. width over height. -/
def assess_image_quality (cfg : QualityChecksCfg) (min_resolution : ℕ)
    (decoded : Option DecodedImage) : ImageQualityMetrics :=
  match decoded with
  | none => zero_metrics
  | some d =>
      let has_ref := detect_reference_object min_resolution d
      { brightness := d.brightness, contrast := d.contrast,
        blurriness := d.blurriness, saturation := d.saturation,
        resolution_width := d.width, resolution_height := d.height,
        aspect_ratio := (d.width : ℚ) / (d.height : ℚ),
        has_reference_object := has_ref,
        overall_score := calculate_quality_score cfg d.brightness d.contrast
          d.blurriness d.saturation has_ref }

/-! ## Category-count model of the chained stratified splits (lines 77-78)

`train_test_split(df, test_size=ts, stratify=df['material'])` is external
sklearn code, so its split membership is modelled relationally at the level
of per-category counts, by the properties its `StratifiedShuffleSplit`
guarantees:
* it raises `ValueError` unless every category present has at least 2
  members, so a successful call implies that precondition;
* the test side receives `⌈ts·n⌉` rows in total;
* each category's test-side count lies between the floor and the ceiling of
  its proportional share (the `_approximate_mode` allocation floors the
  shares and randomly distributes the remainder, one unit per category);
* the train side receives the complement of each category.
A `PipelineRun` is one possible successful execution of the two chained
calls; the execution sklearn actually performs for `random_state=42` is one
of them. -/

/-- Total number of manifest rows, from per-category counts `k` over the
category list `cats`. -/
def totalOf (cats : List String) (k : String → ℕ) : ℕ :=
  (cats.map k).sum

/-- The test-side total of a `train_test_split` call: `⌈ts · n⌉`. -/
def n_test_of (cats : List String) (k : String → ℕ) (ts : ℚ) : ℕ :=
  (⌈ts * (totalOf cats k : ℚ)⌉).toNat

/-- One successful stratified `train_test_split` call on per-category
counts `k` with test fraction `ts`: the function `t` gives each category's
test-side count. -/
structure StratSplit (cats : List String) (k : String → ℕ) (ts : ℚ) where
  t : String → ℕ
  min_two : ∀ c ∈ cats, k c ≠ 0 → 2 ≤ k c
  t_le : ∀ c ∈ cats, t c ≤ k c
  sum_t : (cats.map t).sum = n_test_of cats k ts
  t_lower : ∀ c ∈ cats,
    ⌊(k c : ℚ) * (n_test_of cats k ts : ℚ) / (totalOf cats k : ℚ)⌋ ≤ (t c : ℤ)
  t_upper : ∀ c ∈ cats,
    (t c : ℤ) ≤ ⌈(k c : ℚ) * (n_test_of cats k ts : ℚ) / (totalOf cats k : ℚ)⌉

/-- One successful run of `process_dataset`'s splitting stage: line 77
(`test_size=0.3`) cuts off the temp pool, line 78 (`test_size=0.33`)
cuts the temp pool into val and test. -/
structure PipelineRun (cats : List String) (k : String → ℕ) where
  s1 : StratSplit cats k (3 / 10)
  s2 : StratSplit cats s1.t (33 / 100)

/-- Per-category size of the train split of a run. -/
def train_count {cats : List String} {k : String → ℕ}
    (r : PipelineRun cats k) (c : String) : ℕ :=
  k c - r.s1.t c

/-- Per-category size of the val split of a run. -/
def val_count {cats : List String} {k : String → ℕ}
    (r : PipelineRun cats k) (c : String) : ℕ :=
  r.s1.t c - r.s2.t c

/-- Per-category size of the test split of a run. -/
def test_count {cats : List String} {k : String → ℕ}
    (r : PipelineRun cats k) (c : String) : ℕ :=
  r.s2.t c

/-- The property claimed of the splitter at a given manifest: it succeeds,
and every category with at least 3 members is represented in all three
splits of every successful run. -/
def splitter_represents_all (cats : List String) (k : String → ℕ) : Prop :=
  Nonempty (PipelineRun cats k) ∧
    ∀ r : PipelineRun cats k, ∀ c ∈ cats, 3 ≤ k c →
      1 ≤ train_count r c ∧ 1 ≤ val_count r c ∧ 1 ≤ test_count r c

/-! ## Concrete inputs used by the theorems -/

/-- A well-formed steel sample with the documentation's default-shaped box. -/
def item0 : Item :=
  ⟨"steel_001.jpg", "steel", ⟨some "steel", some [80, 60, 480, 360], some 12⟩⟩

/-- The row `_convert_to_yolo_format` produces for `item0`. -/
def row0 : YoloRow :=
  ⟨"steel_001.jpg", "steel", 12, "0 0.437500 0.437500 0.625000 0.625000"⟩

/-- A fifteen-entry manifest, below the 20 minimum. -/
def items15 : List Item := List.replicate 15 item0

/-- A split function standing in for the sklearn calls; never reached on
the paths it is used on. -/
def dummy_tts : SplitFn := fun _ => .error .stratifyValueError

/-- A sample whose bounding-box list has three elements, so that unpacking
it raises and `_convert_to_yolo_format` returns `None`. -/
def item_bad : Item :=
  ⟨"bad.jpg", "steel", ⟨some "steel", some [1, 2, 3], none⟩⟩

/-- A sample of an unknown category whose box normalizes far outside
`[0, 1]`: width `1000/640`. -/
def item_oob : Item :=
  ⟨"huge.jpg", "plastic", ⟨some "plastic", some [0, 0, 1000, 1000], none⟩⟩

/-! ## Theorems -/

lemma singleton_ne_of_length (c : Char) (s : String) (h : s.length ≠ 1) :
    String.singleton c ≠ s := by
  intro he
  exact h (he ▸ rfl)

lemma py_split_dir_guard_false (s : String) : py_split_dir_guard s = false := by
  unfold py_split_dir_guard
  rw [List.any_eq_false]
  intro c _
  simp only [List.contains, List.elem_iff, List.mem_cons, List.mem_singleton,
    List.not_mem_nil, or_false]
  push_neg
  refine ⟨?_, ?_, ?_⟩ <;> exact singleton_ne_of_length c _ (by decide)

/-- C10: the split-directory exclusion in `_collect_data` is vacuous: the
guard iterates over single characters of the path string, none of which can
equal a multi-character split name, so it is false on every path and every
directory — those named `train`, `val` or `test` included — is collected as
a material category. -/
theorem collect_data_guard_vacuous :
    (∀ s : String, py_split_dir_guard s = false) ∧
    (∀ dirs : List MaterialDir,
      collect_data dirs = (dirs.filter (fun d => d.is_dir)).flatMap dir_items) := by
  refine ⟨py_split_dir_guard_false, ?_⟩
  intro dirs
  unfold collect_data
  congr 1
  apply List.filter_congr
  intro d _
  rw [py_split_dir_guard_false d.path]
  simp

/-- C5: the split stage is a function of the manifest and the
`random_state` seed alone.  Both `train_test_split` calls pass
`random_state=42`, so the ambient global RNG state has no influence; two
runs on the same manifest (with any intervening change of global RNG
state) produce identical splits, and likewise for any fixed seed. -/
theorem create_data_splits_deterministic :
    (∀ (sampler : Sampler) (rows : List YoloRow) (g g' : ℕ),
      create_data_splits sampler g rows = create_data_splits sampler g' rows) ∧
    (∀ (sampler : Sampler) (seed : ℕ) (g g' : ℕ) (rows : List YoloRow),
      train_test_split_model sampler (some seed) g rows
        = train_test_split_model sampler (some seed) g' rows) :=
  ⟨fun _ _ _ _ => rfl, fun _ _ _ _ _ => rfl⟩

/-- C4 counterexample: on a fifteen-entry manifest `process_dataset` does
not raise anything — in particular not the spec's `InsufficientDataError`.
It returns Python `False` with no file written. -/
theorem insufficient_data_returns_false :
    process_dataset items15 dummy_tts = .ok (false, []) ∧
    process_dataset items15 dummy_tts ≠ .error .insufficientData := by
  refine ⟨rfl, ?_⟩
  intro h
  rw [show process_dataset items15 dummy_tts = Except.ok (false, []) from rfl] at h
  exact Except.noConfusion h

/-- C4 amended: below 20 collected entries the run is a hard stop — it
returns `False` before conversion, splitting or export, writing nothing. -/
theorem insufficient_data_hard_stop (items : List Item) (tts : SplitFn)
    (h : items.length < 20) :
    process_dataset items tts = .ok (false, []) := by
  unfold process_dataset
  rw [if_pos h]

/-- Witness for `insufficient_data_hard_stop` at the 15-entry manifest. -/
theorem insufficient_data_hard_stop_witness :
    items15.length < 20 ∧ process_dataset items15 dummy_tts = .ok (false, []) :=
  ⟨by decide, insufficient_data_hard_stop items15 dummy_tts (by decide)⟩

/-- C8: per-sample failures never abort a batch.  A decode failure makes
`_assess_image_quality` return the all-zero metrics (whose overall score is
0) instead of raising, and a sample `_convert_to_yolo_format` rejects is
simply excluded from the conversion stage, which processes the surrounding
samples unchanged. -/
theorem per_sample_failure_recovered :
    (∀ (cfg : QualityChecksCfg) (mr : ℕ),
      assess_image_quality cfg mr none = zero_metrics ∧
      (assess_image_quality cfg mr none).overall_score = 0) ∧
    (∀ (pre post : List Item) (bad : Item), convert_to_yolo_format bad = none →
      convert_stage (pre ++ bad :: post) = convert_stage pre ++ convert_stage post) := by
  constructor
  · exact fun _ _ => ⟨rfl, rfl⟩
  · intro pre post bad h
    unfold convert_stage
    rw [List.filterMap_append, List.filterMap_cons, h]

/-- Witness for `per_sample_failure_recovered` at a concrete bad sample. -/
theorem per_sample_failure_recovered_witness :
    convert_to_yolo_format item_bad = none ∧
    convert_stage ([item0] ++ item_bad :: []) = convert_stage [item0] ++ convert_stage [] :=
  ⟨by decide, per_sample_failure_recovered.2 [item0] [] item_bad (by decide)⟩

/-- C2 counterexample: for an 800×600 image fully covered by its box, the
spec formula with the true image dimensions gives width 1, but the code
divides by the fixed 640 and gets 5/4. -/
theorem normalizer_ignores_image_dims :
    yoloCoords 0 0 800 600 ≠ specNormalize 0 0 800 600 800 600 := by
  intro h
  have h3 := congrArg (fun p => p.2.2.1) h
  simp only [yoloCoords, specNormalize, img_width] at h3
  norm_num at h3

/-- C2 amended: the normalizer computes exactly the spec's formulas, but
with the processor's fixed configured dimensions 640×480 in place of the
actual image dimensions; the two agree only when the image is 640×480. -/
theorem normalizer_uses_configured_dims (x_min y_min x_max y_max : ℤ) :
    yoloCoords x_min y_min x_max y_max
      = specNormalize x_min y_min x_max y_max img_width img_height := by
  unfold yoloCoords specNormalize img_width img_height
  simp only [Prod.mk.injEq]
  norm_num [div_div]

/-- C6 counterexample: a record whose normalized width is 25/16 — far
outside `[0, 1]` — is not rejected (`_convert_to_yolo_format` returns a
row, there is no `ValidationError` path in the code), and its unknown
category is mapped to class 0 with no flag recorded anywhere in the
returned row. -/
theorem no_range_validation :
    convert_to_yolo_format item_oob ≠ none ∧
    ¬ (yoloCoords 0 0 1000 1000).2.2.1 ≤ 1 ∧
    class_id_of item_oob = 0 := by
  refine ⟨by decide, ?_, by decide⟩
  simp only [yoloCoords, img_width]
  norm_num

/-- C6 amended: conversion performs no range validation at all — whenever
the bounding-box list has four elements it succeeds and emits the computed
coordinates unchanged — and an unrecognized declared category silently maps
to the default class 0. -/
theorem convert_no_validation (item : Item) (x_min y_min x_max y_max : ℤ)
    (hb : item.annotation.bounding_box = some [x_min, y_min, x_max, y_max]) :
    convert_to_yolo_format item = some
      { image_path := item.image_path,
        material := item.annotation.material_type.getD item.material,
        weight := item.annotation.weight_pounds.getD 0,
        bbox_data := bbox_data_str (class_id_of item)
          (yoloCoords x_min y_min x_max y_max) } ∧
    ((class_mapping.find? (fun p =>
        p.1 == item.annotation.material_type.getD item.material)) = none →
      class_id_of item = 0) := by
  constructor
  · unfold convert_to_yolo_format
    rw [hb]
    rfl
  · intro hf
    unfold class_id_of dictGet
    rw [hf]

/-- Witness for `convert_no_validation` at the out-of-range unknown-category
sample. -/
theorem convert_no_validation_witness :
    item_oob.annotation.bounding_box = some [0, 0, 1000, 1000] ∧
    (convert_to_yolo_format item_oob = some
      { image_path := item_oob.image_path,
        material := item_oob.annotation.material_type.getD item_oob.material,
        weight := item_oob.annotation.weight_pounds.getD 0,
        bbox_data := bbox_data_str (class_id_of item_oob)
          (yoloCoords 0 0 1000 1000) } ∧
    ((class_mapping.find? (fun p =>
        p.1 == item_oob.annotation.material_type.getD item_oob.material)) = none →
      class_id_of item_oob = 0)) :=
  ⟨by decide, convert_no_validation item_oob 0 0 1000 1000 (by decide)⟩

lemma format6_716 : format6 (7 / 16) = "0.437500" := by
  have h : microRound ((7 : ℚ) / 16) = 437500 := by
    unfold microRound
    norm_num
  unfold format6
  rw [h]
  decide

lemma format6_58 : format6 (5 / 8) = "0.625000" := by
  have h : microRound ((5 : ℚ) / 8) = 625000 := by
    unfold microRound
    norm_num
  unfold format6
  rw [h]
  decide

lemma yoloCoords_item0 : yoloCoords 80 60 480 360 = (7 / 16, 7 / 16, 5 / 8, 5 / 8) := by
  unfold yoloCoords img_width img_height
  simp only [Prod.mk.injEq]
  norm_num

lemma bbox_data_item0 :
    bbox_data_str 0 (7 / 16, 7 / 16, 5 / 8, 5 / 8)
      = "0 0.437500 0.437500 0.625000 0.625000" := by
  unfold bbox_data_str
  rw [format6_716, format6_58]
  decide

/-- C1 (code bug): the label writer appends the two characters `\` and `n`
— the Python source contains the over-escaped literal `'\\n'` — instead of
a newline.  Evaluated on a concrete entry: the produced file content is the
five fields followed by a literal backslash-n, it differs from the
spec-mandated newline-terminated line, and the repository's own
`check_data.py` label check then fails to parse the final token. -/
theorem label_terminator_is_literal_backslash_n :
    convert_to_yolo_format item0 = some row0 ∧
    label_file_content row0 = "0 0.437500 0.437500 0.625000 0.625000\\n" ∧
    label_file_content row0 ≠ "0 0.437500 0.437500 0.625000 0.625000\n" ∧
    validateLabelContent (label_file_content row0) = .couldNotParseNumbers := by
  refine ⟨?_, rfl, by decide, by decide⟩
  have hc : convert_to_yolo_format item0
      = some ⟨"steel_001.jpg", "steel", 12,
          bbox_data_str 0 (yoloCoords 80 60 480 360)⟩ := rfl
  rw [hc, yoloCoords_item0, bbox_data_item0]
  rfl

/-- The label line of the spec's validator scenario. -/
def scenario_label_line : String := "1 0.512300 0.481200 0.305000 0.402500"

lemma scenario_label_valid : validateLabelContent scenario_label_line = .valid := by
  have h1 : pythonStrip scenario_label_line = scenario_label_line := by decide
  have h2 : pythonSplitWs scenario_label_line
      = ["1", "0.512300", "0.481200", "0.305000", "0.402500"] := by decide
  have p0 : parseDec "1" = some (false, 1, 0, 0) := by decide
  have p1 : parseDec "0.512300" = some (false, 0, 512300, 6) := by decide
  have p2 : parseDec "0.481200" = some (false, 0, 481200, 6) := by decide
  have p3 : parseDec "0.305000" = some (false, 0, 305000, 6) := by decide
  have p4 : parseDec "0.402500" = some (false, 0, 402500, 6) := by decide
  unfold validateLabelContent
  rw [h1]
  rw [if_neg (by decide : ¬ scenario_label_line.data = [])]
  rw [h2]
  simp only [parseFloatQ, p0, p1, p2, p3, p4, Option.map_some']
  rw [if_pos (by norm_num)]

/-- C7 counterexample: a split whose first label file is well-formed but
whose second is garbage still reports valid — the label-format checks are
not applied to each sample, only to `labels[0]`. -/
theorem validator_checks_only_first_label :
    check_first_label [scenario_label_line, "garbage"] = some .valid ∧
    validateLabelContent "garbage" = .wrongTokenCount := by
  refine ⟨?_, by decide⟩
  show some (validateLabelContent scenario_label_line) = some LabelVerdict.valid
  rw [scenario_label_valid]

/-- C7 amended: the checks (exactly five whitespace-separated tokens, all
parseable, box components in `[0, 1]`, class value in the vocabulary index
range) are applied to the first label file of a split only, and the
scenario line `"1 0.512300 0.481200 0.305000 0.402500"` is marked valid
regardless of what the remaining label files contain. -/
theorem validator_scenario_line_valid (rest : List String) :
    check_first_label (scenario_label_line :: rest) = some LabelVerdict.valid := by
  show some (validateLabelContent scenario_label_line) = some LabelVerdict.valid
  rw [scenario_label_valid]

/-- C9: for every successfully decoded image, whatever nonnegative
statistics it measures and whatever positive thresholds the configuration
holds, the literal weights sum to 1 and the overall score is a weighted
average landing in `[0, 1]`. -/
theorem overall_score_in_unit_interval (cfg : QualityChecksCfg) (mr : ℕ)
    (d : DecodedImage)
    (tb : 0 < cfg.brightness_threshold_hi) (tc : 0 < cfg.contrast_threshold)
    (tl : 0 < cfg.blur_threshold) (ts : 0 < cfg.saturation_threshold)
    (hb : 0 ≤ d.brightness) (hc : 0 ≤ d.contrast)
    (hl : 0 ≤ d.blurriness) (hs : 0 ≤ d.saturation) :
    (([2 / 10, 2 / 10, 3 / 10, 2 / 10, 1 / 10] : List ℚ).sum = 1) ∧
    0 ≤ (assess_image_quality cfg mr (some d)).overall_score ∧
    (assess_image_quality cfg mr (some d)).overall_score ≤ 1 := by
  refine ⟨by norm_num, ?_⟩
  show 0 ≤ calculate_quality_score cfg d.brightness d.contrast d.blurriness
      d.saturation (detect_reference_object mr d) ∧
    calculate_quality_score cfg d.brightness d.contrast d.blurriness
      d.saturation (detect_reference_object mr d) ≤ 1
  unfold calculate_quality_score np_average
  have b1 : 0 ≤ min (d.brightness / cfg.brightness_threshold_hi) 1 :=
    le_min (div_nonneg hb tb.le) zero_le_one
  have b2 : min (d.brightness / cfg.brightness_threshold_hi) 1 ≤ 1 := min_le_right _ _
  have c1 : 0 ≤ min (d.contrast / cfg.contrast_threshold) 1 :=
    le_min (div_nonneg hc tc.le) zero_le_one
  have c2 : min (d.contrast / cfg.contrast_threshold) 1 ≤ 1 := min_le_right _ _
  have l1 : 0 ≤ min (d.blurriness / cfg.blur_threshold) 1 :=
    le_min (div_nonneg hl tl.le) zero_le_one
  have l2 : min (d.blurriness / cfg.blur_threshold) 1 ≤ 1 := min_le_right _ _
  have s1 : 0 ≤ min (d.saturation / cfg.saturation_threshold) 1 :=
    le_min (div_nonneg hs ts.le) zero_le_one
  have s2 : min (d.saturation / cfg.saturation_threshold) 1 ≤ 1 := min_le_right _ _
  have r1 : 0 ≤ (if detect_reference_object mr d then (1 : ℚ) else 1 / 2) := by
    split <;> norm_num
  have r2 : (if detect_reference_object mr d then (1 : ℚ) else 1 / 2) ≤ 1 := by
    split <;> norm_num
  simp only [List.zip_cons_cons, List.zip_nil_right, List.map_cons, List.map_nil,
    List.sum_cons, List.sum_nil]
  constructor
  · rw [le_div_iff₀ (by norm_num)]
    nlinarith
  · rw [div_le_one (by norm_num)]
    nlinarith

/-- The integer-threshold configuration used to witness
`overall_score_in_unit_interval`. -/
def cfg1 : QualityChecksCfg := ⟨1, 1, 1, 1⟩

/-- A concrete decoded image with unit statistics. -/
def d1 : DecodedImage := ⟨1, 1, 1, 1, 640, 480⟩

/-- Witness for `overall_score_in_unit_interval` at `cfg1` and `d1`. -/
theorem overall_score_in_unit_interval_witness :
    (0 : ℚ) < 1 ∧ (0 : ℚ) ≤ 1 ∧
    (0 ≤ (assess_image_quality cfg1 0 (some d1)).overall_score ∧
      (assess_image_quality cfg1 0 (some d1)).overall_score ≤ 1) :=
  ⟨by decide, by decide,
    (overall_score_in_unit_interval cfg1 0 d1 (by decide) (by decide) (by decide)
      (by decide) (by decide) (by decide) (by decide) (by decide)).2⟩

/-! ## The 3/27 manifest refuting the count-3 representation guarantee -/

/-- Two categories: one rare (3 members), one common (27 members). -/
def cats0 : List String := ["aluminum", "steel"]

/-- Per-category counts of the 30-row manifest. -/
def k0 : String → ℕ :=
  fun c => if c = "aluminum" then 3 else if c = "steel" then 27 else 0

lemma total_k0 : totalOf cats0 k0 = 30 := by decide

lemma ntest_k0 : n_test_of cats0 k0 (3 / 10) = 9 := by
  unfold n_test_of
  rw [total_k0]
  have h : ⌈(3 / 10 : ℚ) * ((30 : ℕ) : ℚ)⌉ = 9 := by
    push_cast
    norm_num
  rw [h]
  rfl

/-- The temp-pool counts of one admissible first split: all 9 temp rows
drawn from steel, none from aluminum (aluminum's proportional share is
9/10, so its floor allows 0). -/
def t1 : String → ℕ := fun c => if c = "steel" then 9 else 0

/-- The test counts of one admissible second split: 3 of the 9 temp rows. -/
def t2 : String → ℕ := fun c => if c = "steel" then 3 else 0

lemma total_t1 : totalOf cats0 t1 = 9 := by decide

lemma ntest_t1 : n_test_of cats0 t1 (33 / 100) = 3 := by
  unfold n_test_of
  rw [total_t1]
  have h : ⌈(33 / 100 : ℚ) * ((9 : ℕ) : ℚ)⌉ = 3 := by
    rw [Int.ceil_eq_iff]
    push_cast
    norm_num
  rw [h]
  rfl

/-- An admissible first `train_test_split` on the 3/27 manifest. -/
def split1 : StratSplit cats0 k0 (3 / 10) where
  t := t1
  min_two := by decide
  t_le := by decide
  sum_t := by
    rw [ntest_k0]
    decide
  t_lower := by
    intro c hc
    rw [ntest_k0, total_k0]
    fin_cases hc
    · rw [show k0 "aluminum" = 3 from rfl, show t1 "aluminum" = 0 from rfl]
      have h : ⌊((3 : ℕ) : ℚ) * ((9 : ℕ) : ℚ) / ((30 : ℕ) : ℚ)⌋ = 0 := by
        push_cast
        norm_num
      rw [h]
      omega
    · rw [show k0 "steel" = 27 from rfl, show t1 "steel" = 9 from rfl]
      have h : ⌊((27 : ℕ) : ℚ) * ((9 : ℕ) : ℚ) / ((30 : ℕ) : ℚ)⌋ = 8 := by
        push_cast
        norm_num
      rw [h]
      omega
  t_upper := by
    intro c hc
    rw [ntest_k0, total_k0]
    fin_cases hc
    · rw [show k0 "aluminum" = 3 from rfl, show t1 "aluminum" = 0 from rfl]
      have h : ⌈((3 : ℕ) : ℚ) * ((9 : ℕ) : ℚ) / ((30 : ℕ) : ℚ)⌉ = 1 := by
        rw [Int.ceil_eq_iff]
        push_cast
        norm_num
      rw [h]
      omega
    · rw [show k0 "steel" = 27 from rfl, show t1 "steel" = 9 from rfl]
      have h : ⌈((27 : ℕ) : ℚ) * ((9 : ℕ) : ℚ) / ((30 : ℕ) : ℚ)⌉ = 9 := by
        rw [Int.ceil_eq_iff]
        push_cast
        norm_num
      rw [h]
      omega

/-- An admissible second `train_test_split` on the temp pool. -/
def split2 : StratSplit cats0 t1 (33 / 100) where
  t := t2
  min_two := by decide
  t_le := by decide
  sum_t := by
    rw [ntest_t1]
    decide
  t_lower := by
    intro c hc
    rw [ntest_t1, total_t1]
    fin_cases hc
    · rw [show t1 "aluminum" = 0 from rfl, show t2 "aluminum" = 0 from rfl]
      have h : ⌊((0 : ℕ) : ℚ) * ((3 : ℕ) : ℚ) / ((9 : ℕ) : ℚ)⌋ = 0 := by
        push_cast
        norm_num
      rw [h]
      omega
    · rw [show t1 "steel" = 9 from rfl, show t2 "steel" = 3 from rfl]
      have h : ⌊((9 : ℕ) : ℚ) * ((3 : ℕ) : ℚ) / ((9 : ℕ) : ℚ)⌋ = 3 := by
        push_cast
        norm_num
      rw [h]
      omega
  t_upper := by
    intro c hc
    rw [ntest_t1, total_t1]
    fin_cases hc
    · rw [show t1 "aluminum" = 0 from rfl, show t2 "aluminum" = 0 from rfl]
      have h : ⌈((0 : ℕ) : ℚ) * ((3 : ℕ) : ℚ) / ((9 : ℕ) : ℚ)⌉ = 0 := by
        push_cast
        norm_num
      rw [h]
      omega
    · rw [show t1 "steel" = 9 from rfl, show t2 "steel" = 3 from rfl]
      have h : ⌈((9 : ℕ) : ℚ) * ((3 : ℕ) : ℚ) / ((9 : ℕ) : ℚ)⌉ = 3 := by
        push_cast
        norm_num
      rw [h]
      omega

/-- A complete successful run of the splitting stage on the 3/27 manifest. -/
def run0 : PipelineRun cats0 k0 := ⟨split1, split2⟩

lemma t1_aluminum_le_one (r : PipelineRun cats0 k0) : r.s1.t "aluminum" ≤ 1 := by
  have h := r.s1.t_upper "aluminum" (by decide)
  rw [ntest_k0, total_k0, show k0 "aluminum" = 3 from rfl] at h
  have hceil : ⌈((3 : ℕ) : ℚ) * ((9 : ℕ) : ℚ) / ((30 : ℕ) : ℚ)⌉ = 1 := by
    rw [Int.ceil_eq_iff]
    push_cast
    norm_num
  rw [hceil] at h
  exact_mod_cast h

lemma t1_aluminum_zero (r : PipelineRun cats0 k0) : r.s1.t "aluminum" = 0 := by
  have h1 := t1_aluminum_le_one r
  rcases Nat.le_one_iff_eq_zero_or_eq_one.mp h1 with h | h
  · exact h
  · exfalso
    have hm := r.s2.min_two "aluminum" (by decide) (by rw [h]; exact one_ne_zero)
    rw [h] at hm
    omega

lemma test_aluminum_zero (r : PipelineRun cats0 k0) : test_count r "aluminum" = 0 := by
  have h := r.s2.t_le "aluminum" (by decide)
  have h0 := t1_aluminum_zero r
  unfold test_count
  omega

/-- C3 counterexample: on a manifest where aluminum has exactly 3 of 30
members, the splitting stage can succeed, yet in every successful run of
the code's two chained stratified splits the test split contains no
aluminum at all (aluminum's temp allocation is 0 or 1; 1 makes the second
stratified call raise, 0 leaves val and test empty of it) — so count ≥ 3
does not guarantee representation in every split. -/
theorem small_category_starved_despite_count_three :
    3 ≤ k0 "aluminum" ∧ Nonempty (PipelineRun cats0 k0) ∧
    ¬ splitter_represents_all cats0 k0 := by
  refine ⟨by decide, ⟨run0⟩, ?_⟩
  intro hrep
  have h := (hrep.2 run0 "aluminum" (by decide) (by decide)).2.2
  rw [test_aluminum_zero run0] at h
  omega

/-- C3 amended: what the code's chained splits do guarantee is weaker — in
every successful run on a manifest of at least 20 rows, the train split
keeps at least one member of every category with at least 2 members.
Representation of a small category in val and test is not guaranteed. -/
theorem stratified_train_keeps_category {cats : List String} {k : String → ℕ}
    (r : PipelineRun cats k) (c : String) (hc : c ∈ cats)
    (h2 : 2 ≤ k c) (h20 : 20 ≤ totalOf cats k) :
    1 ≤ train_count r c := by
  have hup := r.s1.t_upper c hc
  have h2' : (2 : ℚ) ≤ (k c : ℚ) := by exact_mod_cast h2
  have h20' : (20 : ℚ) ≤ (totalOf cats k : ℚ) := by exact_mod_cast h20
  have hNpos : (0 : ℚ) < (totalOf cats k : ℚ) := by linarith
  have hKpos : (0 : ℚ) < (k c : ℚ) := by linarith
  have hnt_int : ((n_test_of cats k (3 / 10) : ℕ) : ℤ)
      = ⌈(3 / 10 : ℚ) * (totalOf cats k : ℚ)⌉ := by
    unfold n_test_of
    exact Int.toNat_of_nonneg (Int.ceil_nonneg (by positivity))
  have hnt_lt : ((n_test_of cats k (3 / 10) : ℕ) : ℚ)
      < (3 / 10) * (totalOf cats k : ℚ) + 1 := by
    have h1 : ((n_test_of cats k (3 / 10) : ℕ) : ℚ)
        = ((⌈(3 / 10 : ℚ) * (totalOf cats k : ℚ)⌉ : ℤ) : ℚ) := by
      exact_mod_cast hnt_int
    rw [h1]
    exact Int.ceil_lt_add_one _
  have hceil : ⌈(k c : ℚ) * ((n_test_of cats k (3 / 10) : ℕ) : ℚ)
      / (totalOf cats k : ℚ)⌉ ≤ (k c : ℤ) - 1 := by
    rw [Int.ceil_le]
    push_cast
    rw [div_le_iff₀ hNpos]
    have hmul : (k c : ℚ) * ((n_test_of cats k (3 / 10) : ℕ) : ℚ)
        < (k c : ℚ) * ((3 / 10) * (totalOf cats k : ℚ) + 1) :=
      mul_lt_mul_of_pos_left hnt_lt hKpos
    nlinarith [hmul, mul_nonneg (by linarith : (0 : ℚ) ≤ (k c : ℚ) - 2)
      (by linarith : (0 : ℚ) ≤ (totalOf cats k : ℚ) - 20)]
  have hfin : (r.s1.t c : ℤ) ≤ (k c : ℤ) - 1 := le_trans hup hceil
  unfold train_count
  omega

/-- Witness for `stratified_train_keeps_category` at the 3/27 manifest and
the constructed run. -/
theorem stratified_train_keeps_category_witness :
    "steel" ∈ cats0 ∧ 2 ≤ k0 "steel" ∧ 20 ≤ totalOf cats0 k0 ∧
      1 ≤ train_count run0 "steel" :=
  ⟨by decide, by decide, by decide,
    stratified_train_keeps_category run0 "steel" (by decide) (by decide) (by decide)⟩

end KLRecycling
